import Mathlib

/-!
Shallow embedding of `src/libmkc/libmkc.c` (masterkeys-linux asynchronous
command controller).  Pointer-based structures become Lean values: the
singly linked instruction queue is a `List LibMK_Instruction`, the flat
`unsigned char*` color buffer is a `List Nat`, and the transport
collaborator (libusb layer, declared in the missing header) is passed in
as function parameters.  `malloc` does not zero memory, so every
allocation site takes a "garbage" parameter holding the arbitrary
uninitialized field contents of the freshly allocated struct; the C code
only overwrites the fields it explicitly assigns.
-/

set_option autoImplicit false

/-- Result codes of the library.  Modelled from the spec: the enum lives in
the header `libmkc.h`/`libmk.h`, which is not part of `src/`; the spec (§7)
gives the taxonomy `Success`, transport-open failure, enable/disable
failure, execution failure, `StillActive`.  Only `LIBMK_SUCCESS` and
`LIBMK_ERR_STILL_ACTIVE` appear by name in `libmkc.c`; the remaining
constructors stand for the distinct transport error codes. -/
inductive LibMK_Result where
  | LIBMK_SUCCESS
  | LIBMK_ERR_STILL_ACTIVE
  | LIBMK_ERR_DEV_NOT_CONNECTED
  | LIBMK_ERR_PROTOCOL
  | LIBMK_ERR_SEND
  | LIBMK_ERR_DISABLE
  deriving DecidableEq, Repr

open LibMK_Result

/-- Controller lifecycle states.  Modelled from the spec: the enum is in the
missing header; the spec (§4.3) names `Inactive`, `Active`, and the
join-timeout value; `libmkc.c` references `LIBMK_STATE_ACTIVE` and
`LIBMK_STATE_JOIN_ERR` by name. -/
inductive LibMK_Controller_State where
  | LIBMK_STATE_INACTIVE
  | LIBMK_STATE_ACTIVE
  | LIBMK_STATE_JOIN_ERR
  deriving DecidableEq, Repr

open LibMK_Controller_State

/-- `LibMK_Instruction` struct: `id`, `duration`, the 3-byte uniform
`color` array, and the `colors` heap buffer (`NULL` = `none`).  The `next`
pointer is represented by the position in the queue `List` instead. -/
structure LibMK_Instruction where
  id : Nat
  duration : Nat
  color : List Nat
  colors : Option (List Nat)
  deriving DecidableEq, Repr

/-- `LibMK_Controller` struct: device handle (abstracted to a `Nat` tag),
the state field, the exit flag, the sticky error slot, and the instruction
queue head (`instr`), modelled as the list of queued instructions.  The
four mutexes only serialize access and carry no data, so they are not
represented. -/
structure LibMK_Controller where
  device : Nat
  state : LibMK_Controller_State
  exit_flag : Bool
  error : LibMK_Result
  instr : List LibMK_Instruction
  deriving DecidableEq, Repr

/-- `libmk_create_controller` (libmkc.c lines 19-34): calls
`libmk_create_handle`; on failure returns `NULL` (here `none`) — the error
code `r` is discarded.  On success it mallocs a controller (uninitialized
contents `g`), assigns only the `device` field, and initializes the four
mutexes; `state`, `exit_flag`, `error` and `instr` are never written. -/
def libmk_create_controller (openRes : LibMK_Result) (device : Nat)
    (g : LibMK_Controller) : Option LibMK_Controller :=
  if openRes ≠ LIBMK_SUCCESS then none
  else some { g with device := device }

/-- `libmk_get_controller_state` (lines 37-43): locked read of `state`. -/
def libmk_get_controller_state (c : LibMK_Controller) : LibMK_Controller_State :=
  c.state

/-- `libmk_get_controller_error` (lines 46-52): locked read of `error`. -/
def libmk_get_controller_error (c : LibMK_Controller) : LibMK_Result :=
  c.error

/-- `libmk_set_controller_error` (lines 115-121): writes `e` into the slot
only when the slot currently holds `LIBMK_SUCCESS` (no error recorded). -/
def libmk_set_controller_error (slot e : LibMK_Result) : LibMK_Result :=
  if slot = LIBMK_SUCCESS then e else slot

/-- A fixed garbage pattern for a malloc-ed `LibMK_Controller`: one possible
content of the uninitialized memory returned by `malloc` (nothing zeroes
it).  Used as a concrete failing input. -/
def garbageController : LibMK_Controller :=
  { device := 0
    state := LIBMK_STATE_ACTIVE
    exit_flag := true
    error := LIBMK_ERR_SEND
    instr := [{ id := 5, duration := 0, color := [1, 2, 3], colors := none }] }

/-- C2: the claim says `create` returns a controller whose state is
Inactive, whose queue is empty, whose error slot is unset and whose exit
flag is false.  The code never writes any of those four fields: with
malloc garbage `garbageController` and a successful transport open, the
returned controller has state Active, a non-empty queue, a recorded error
and a raised exit flag — all four guarantees fail. -/
theorem libmk_create_controller_uninitialized_bug :
    libmk_create_controller LIBMK_SUCCESS 7 garbageController =
      some { garbageController with device := 7 } ∧
    (libmk_get_controller_state { garbageController with device := 7 } ≠
      LIBMK_STATE_INACTIVE) ∧
    ({ garbageController with device := 7 }).instr ≠ [] ∧
    (libmk_get_controller_error { garbageController with device := 7 } ≠
      LIBMK_SUCCESS) ∧
    ({ garbageController with device := 7 }).exit_flag = true := by
  refine ⟨rfl, ?_, ?_, ?_, rfl⟩ <;> decide

/-- C4 counterexample: the claim says `create` returns the transport's
error code to the caller.  The source returns the bare null pointer
`none`: two runs whose transport opens fail with different error codes
produce identical results, so the result cannot carry the error code back
to the caller. -/
theorem libmk_create_controller_error_not_returned :
    libmk_create_controller LIBMK_ERR_DEV_NOT_CONNECTED 0 garbageController
      = none ∧
    libmk_create_controller LIBMK_ERR_PROTOCOL 0 garbageController = none ∧
    LIBMK_ERR_DEV_NOT_CONNECTED ≠ LIBMK_ERR_PROTOCOL := by
  exact ⟨rfl, rfl, by decide⟩

/-- C4 amended: whenever the transport open primitive fails during create,
create returns a null controller (no controller is allocated); the
transport's specific error code is discarded, not returned. -/
theorem libmk_create_controller_null_on_open_failure
    (openRes : LibMK_Result) (device : Nat) (g : LibMK_Controller)
    (h : openRes ≠ LIBMK_SUCCESS) :
    libmk_create_controller openRes device g = none := by
  simp [libmk_create_controller, h]

/-- C4 amended, witness at a concrete failing open. -/
theorem libmk_create_controller_null_on_open_failure_witness :
    libmk_create_controller LIBMK_ERR_PROTOCOL 3 garbageController = none :=
  libmk_create_controller_null_on_open_failure LIBMK_ERR_PROTOCOL 3
    garbageController (by decide)

/-- Transport calls that `libmk_exec_instruction` can make (the missing
header declares `libmk_send_control_packet` and `libmk_set_all_led_color`;
the payload of `setAllLedColor` is the flat byte buffer passed in). -/
inductive LibMK_TransportCall where
  | sendControlPacket
  | setAllLedColor (colors : List Nat)
  deriving DecidableEq, Repr

/-- `libmk_create_instruction` (lines 177-184): mallocs an instruction
(uninitialized contents `g`) and assigns only `duration := 0` and
`id := 0`; `color`, `colors` and `next` keep their garbage values. -/
def libmk_create_instruction (g : LibMK_Instruction) : LibMK_Instruction :=
  { g with duration := 0, id := 0 }

/-- `libmk_create_instruction_full` (lines 187-193): fresh instruction with
the 3 uniform color bytes copied in (the `colors` pointer stays garbage). -/
def libmk_create_instruction_full (c : List Nat) (g : LibMK_Instruction) :
    LibMK_Instruction :=
  { libmk_create_instruction g with color := [c.getD 0 0, c.getD 1 0, c.getD 2 0] }

/-- The buffer produced by the copy loops of `libmk_create_instruction_all`
(lines 202-205): for `row < R`, `col < C`, `j < 3`, in that nesting order,
`colors[row * C + j] = c[row][col][j]`.  `buf` is the uninitialized
content of the `malloc(R * C * 3)` buffer; `List.set` out of range is a
no-op, matching an in-bounds model only when `buf` has the malloc-ed
length. -/
def libmk_all_copy (R C : Nat) (c : Nat → Nat → Nat → Nat)
    (buf : List Nat) : List Nat :=
  (List.range R).foldl (fun b row =>
    (List.range C).foldl (fun b col =>
      (List.range 3).foldl (fun b j =>
        b.set (row * C + j) (c row col j)) b) b) buf

/-- `libmk_create_instruction_all` (lines 196-207): fresh instruction whose
`colors` buffer is filled by `libmk_all_copy`.  `R`/`C` stand for
`LIBMK_MAX_ROWS`/`LIBMK_MAX_COLS`, constants of the missing header. -/
def libmk_create_instruction_all (R C : Nat) (c : Nat → Nat → Nat → Nat)
    (buf : List Nat) (g : LibMK_Instruction) : LibMK_Instruction :=
  { libmk_create_instruction g with colors := some (libmk_all_copy R C c buf) }

/-- The flat row-major layout a faithful grid copy would have:
element `(row * C + col) * 3 + j` is `c[row][col][j]`.  This is the layout
`libmk_set_all_led_color` expects (a full `R × C × 3` array cast to a flat
pointer, cf. the stack array in `libmk_exec_instruction` lines 131-136). -/
def gridFlatten (R C : Nat) (c : Nat → Nat → Nat → Nat) : List Nat :=
  (List.range R).flatMap (fun row =>
    (List.range C).flatMap (fun col =>
      [c row col 0, c row col 1, c row col 2]))

/-- `libmk_exec_instruction` (lines 124-138), as the transport call it
performs: a `NULL` instruction sends the control packet; an instruction
with a non-null `colors` buffer passes that buffer to
`libmk_set_all_led_color`; otherwise the 3-byte `color` is expanded on the
stack into a fully uniform `R × C × 3` grid and that is passed. -/
def libmk_exec_call (R C : Nat) (i : Option LibMK_Instruction) :
    LibMK_TransportCall :=
  match i with
  | none => .sendControlPacket
  | some i =>
    match i.colors with
    | some buf => .setAllLedColor buf
    | none => .setAllLedColor (gridFlatten R C (fun _ _ j => i.color.getD j 0))

/-- `libmk_exec_instruction`'s return value: the transport's result for
the call made (`tr` is the transport collaborator). -/
def libmk_exec_instruction (tr : LibMK_TransportCall → LibMK_Result)
    (R C : Nat) (i : Option LibMK_Instruction) : LibMK_Result :=
  tr (libmk_exec_call R C i)

/-- A fixed garbage pattern for a malloc-ed `LibMK_Instruction`. -/
def garbageInstruction : LibMK_Instruction :=
  { id := 9, duration := 4, color := [8, 8, 8], colors := none }

/-- A concrete 2 × 3 grid: `c[row][col][j] = 10 * row + col`. -/
def gridC3 : Nat → Nat → Nat → Nat :=
  fun row col _ => 10 * row + col

/-- C3: the claim says `libmk_create_instruction_all` stores a faithful
copy of the grid and executing the instruction passes each LED's color to
the transport.  The copy loop writes `colors[row * C + j]`, dropping `col`
and the `* 3` stride: with `R = 2`, `C = 3` and grid
`c[row][col][j] = 10 * row + col`, each row's three columns collapse onto
the same 3 bytes (last column wins) and bytes 6-17 of the malloc-ed
buffer keep their garbage value 99.  The stored payload `[2,2,2,12,12,12,
99,...]` differs from the faithful flat copy `[0,0,0,1,1,1,2,2,2,10,10,10,
11,11,11,12,12,12]`, and `libmk_exec_call` hands exactly this corrupted
payload to `libmk_set_all_led_color`. -/
theorem libmk_create_instruction_all_index_bug :
    (libmk_create_instruction_all 2 3 gridC3 (List.replicate 18 99)
        garbageInstruction).colors =
      some [2, 2, 2, 12, 12, 12, 99, 99, 99, 99, 99, 99, 99, 99, 99, 99, 99, 99] ∧
    gridFlatten 2 3 gridC3 =
      [0, 0, 0, 1, 1, 1, 2, 2, 2, 10, 10, 10, 11, 11, 11, 12, 12, 12] ∧
    (libmk_create_instruction_all 2 3 gridC3 (List.replicate 18 99)
        garbageInstruction).colors ≠ some (gridFlatten 2 3 gridC3) ∧
    libmk_exec_call 2 3 (some (libmk_create_instruction_all 2 3 gridC3
        (List.replicate 18 99) garbageInstruction)) =
      .setAllLedColor
        [2, 2, 2, 12, 12, 12, 99, 99, 99, 99, 99, 99, 99, 99, 99, 99, 99, 99] := by
  refine ⟨?_, ?_, ?_, ?_⟩ <;> decide

/-- The tail walk of `libmk_sched_instruction` (lines 218-226): starting at
node `t`, advance until `next == NULL`, then hang `i` there with
`id = tail.id + 1`. -/
def libmk_sched_walk (t : LibMK_Instruction) :
    List LibMK_Instruction → LibMK_Instruction → List LibMK_Instruction
  | [], i => [t, { i with id := t.id + 1 }]
  | u :: rest, i => t :: libmk_sched_walk u rest i

/-- `libmk_sched_instruction` (lines 210-230): under the queue lock, an
empty queue makes `i` the head with `id := 1`; otherwise the walk appends
at the tail.  The function always returns `LIBMK_SUCCESS`. -/
def libmk_sched_instruction (q : List LibMK_Instruction)
    (i : LibMK_Instruction) : List LibMK_Instruction × LibMK_Result :=
  match q with
  | [] => ([{ i with id := 1 }], LIBMK_SUCCESS)
  | t :: rest => (libmk_sched_walk t rest i, LIBMK_SUCCESS)

theorem libmk_sched_walk_append (i last : LibMK_Instruction) :
    ∀ (mid : List LibMK_Instruction) (t : LibMK_Instruction),
      libmk_sched_walk t (mid ++ [last]) i =
        (t :: mid) ++ [last, { i with id := last.id + 1 }] := by
  intro mid
  induction mid with
  | nil => intro t; simp [libmk_sched_walk]
  | cons u rest ih => intro t; simp [libmk_sched_walk, ih u]

/-- C7: enqueue always succeeds (returns `LIBMK_SUCCESS`); on an empty
queue the instruction becomes the head with id 1; on any non-empty queue
`q ++ [t]` — whatever its shape after earlier cancellations — the
instruction is appended after the current tail `t` with id `t.id + 1`. -/
theorem libmk_sched_instruction_appends_tail_id
    (q qfront : List LibMK_Instruction) (t i : LibMK_Instruction) :
    (libmk_sched_instruction q i).2 = LIBMK_SUCCESS ∧
    (libmk_sched_instruction [] i).1 = [{ i with id := 1 }] ∧
    (libmk_sched_instruction (qfront ++ [t]) i).1 =
      qfront ++ [t, { i with id := t.id + 1 }] := by
  refine ⟨?_, rfl, ?_⟩
  · cases q <;> rfl
  · cases qfront with
    | nil => simp [libmk_sched_instruction, libmk_sched_walk]
    | cons a rest =>
      simp [libmk_sched_instruction, libmk_sched_walk_append i t rest a]

/-- The splice loop of `libmk_cancel_instruction` (lines 236-250): scan for
the first node with matching `id`; when found, unlink it (predecessor's
`next`, or the head pointer) and free it. -/
def libmk_cancel_splice : List LibMK_Instruction → Nat → List LibMK_Instruction
  | [], _ => []
  | i :: rest, id => if i.id = id then rest else i :: libmk_cancel_splice rest id

/-- `libmk_cancel_instruction` (lines 233-253): under the queue lock,
splice out the first instruction with the given id (if any) and return
`LIBMK_SUCCESS` unconditionally. -/
def libmk_cancel_instruction (q : List LibMK_Instruction) (id : Nat) :
    List LibMK_Instruction × LibMK_Result :=
  (libmk_cancel_splice q id, LIBMK_SUCCESS)

theorem libmk_cancel_splice_absent (id : Nat) :
    ∀ q : List LibMK_Instruction, (∀ i ∈ q, i.id ≠ id) →
      libmk_cancel_splice q id = q := by
  intro q
  induction q with
  | nil => intro _; rfl
  | cons a rest ih =>
    intro h
    simp only [libmk_cancel_splice, h a (List.mem_cons_self a rest), if_neg]
    exact congrArg (a :: ·) (ih fun i hi => h i (List.mem_cons_of_mem a hi))

theorem libmk_cancel_splice_found (id : Nat) (x : LibMK_Instruction)
    (post : List LibMK_Instruction) (hx : x.id = id) :
    ∀ pre : List LibMK_Instruction, (∀ i ∈ pre, i.id ≠ id) →
      libmk_cancel_splice (pre ++ x :: post) id = pre ++ post := by
  intro pre
  induction pre with
  | nil => intro _; simp [libmk_cancel_splice, hx]
  | cons a rest ih =>
    intro h
    simp only [List.cons_append, libmk_cancel_splice,
      h a (List.mem_cons_self a rest), if_neg]
    exact congrArg (a :: ·) (ih fun i hi => h i (List.mem_cons_of_mem a hi))

/-- C9: cancel always returns `LIBMK_SUCCESS`; an id carried by no queued
instruction leaves the queue unchanged; when the id is present, the first
matching instruction is spliced out of the queue and dropped. -/
theorem libmk_cancel_instruction_noop_or_splice
    (q pre post : List LibMK_Instruction) (x : LibMK_Instruction) (id : Nat) :
    (libmk_cancel_instruction q id).2 = LIBMK_SUCCESS ∧
    ((∀ i ∈ q, i.id ≠ id) → (libmk_cancel_instruction q id).1 = q) ∧
    ((∀ i ∈ pre, i.id ≠ id) → x.id = id →
      (libmk_cancel_instruction (pre ++ x :: post) id).1 = pre ++ post) := by
  refine ⟨rfl, ?_, ?_⟩
  · exact fun h => libmk_cancel_splice_absent id q h
  · exact fun hpre hx => libmk_cancel_splice_found id x post hx pre hpre

/-- C9 witness: cancelling id 4 in a queue holding ids 1 and 2 is a no-op
returning success; cancelling id 2 splices that node out. -/
theorem libmk_cancel_instruction_noop_or_splice_witness :
    (libmk_cancel_instruction
      [{ garbageInstruction with id := 1 }, { garbageInstruction with id := 2 }]
      4).2 = LIBMK_SUCCESS ∧
    (libmk_cancel_instruction
      [{ garbageInstruction with id := 1 }, { garbageInstruction with id := 2 }]
      4).1 =
      [{ garbageInstruction with id := 1 }, { garbageInstruction with id := 2 }] ∧
    (libmk_cancel_instruction
      [{ garbageInstruction with id := 1 }, { garbageInstruction with id := 2 }]
      2).1 = [{ garbageInstruction with id := 1 }] := by
  refine ⟨(libmk_cancel_instruction_noop_or_splice
      [{ garbageInstruction with id := 1 }, { garbageInstruction with id := 2 }]
      [] [] garbageInstruction 4).1, ?_, ?_⟩
  · exact (libmk_cancel_instruction_noop_or_splice
      [{ garbageInstruction with id := 1 }, { garbageInstruction with id := 2 }]
      [] [] garbageInstruction 4).2.1 (by decide)
  · have h := (libmk_cancel_instruction_noop_or_splice []
      [{ garbageInstruction with id := 1 }] []
      { garbageInstruction with id := 2 } 2).2.2 (by decide) (by decide)
    simpa using h

/-- `libmk_start_controller` (lines 72-81): calls
`libmk_enable_control`; on failure returns that error without spawning the
worker; on success spawns `libmk_run_controller` in a new thread and
returns `LIBMK_SUCCESS`.  No field of the controller is written — in
particular `state` is left exactly as it was. -/
def libmk_start_controller (enableRes : LibMK_Result)
    (c : LibMK_Controller) : LibMK_Result × LibMK_Controller :=
  if enableRes ≠ LIBMK_SUCCESS then (enableRes, c)
  else (LIBMK_SUCCESS, c)

/-- The instruction-draining phase of the worker loop (lines 94-106), for a
run in which the exit flag stays down: execute the queue head; on success
advance and free it; on a failing result `r` break out.  Returns the list
of instructions on which `libmk_exec_instruction` was invoked, paired with
`none` when the queue ran dry (the loop then spins on `instr == NULL`
without exiting) or `some (r, remaining)` when execution failed with `r`
and the loop broke with `remaining` still linked from the head. -/
def libmk_drain (tr : LibMK_TransportCall → LibMK_Result) (R C : Nat) :
    List LibMK_Instruction →
      List LibMK_Instruction ×
        Option (LibMK_Result × List LibMK_Instruction)
  | [] => ([], none)
  | i :: rest =>
    if libmk_exec_instruction tr R C (some i) = LIBMK_SUCCESS then
      ((i :: (libmk_drain tr R C rest).1), (libmk_drain tr R C rest).2)
    else ([i], some (libmk_exec_instruction tr R C (some i), i :: rest))

/-- The shutdown tail of the worker loop (lines 108-111): call
`libmk_disable_control`; if its result `d` is a failure, offer it to the
sticky error slot. -/
def libmk_run_exit_error (slot d : LibMK_Result) : LibMK_Result :=
  if d = LIBMK_SUCCESS then slot else libmk_set_controller_error slot d

/-- `libmk_run_controller` (lines 84-112), for a run in which the exit
flag is not changed concurrently: if the flag is already up the loop
breaks at once and only the shutdown tail runs; otherwise the loop drains
the queue.  A failing execution records its error (write-once) and breaks
to the shutdown tail; a queue that runs dry leaves the loop spinning
forever (`none` — the function does not return).  The `state` field is
never assigned anywhere in the function. -/
def libmk_run_controller (tr : LibMK_TransportCall → LibMK_Result)
    (R C : Nat) (d : LibMK_Result) (c : LibMK_Controller) :
    Option LibMK_Controller :=
  if c.exit_flag then some { c with error := libmk_run_exit_error c.error d }
  else
    match libmk_drain tr R C c.instr with
    | (_, some (r, remaining)) =>
      some { c with
        instr := remaining
        error := libmk_run_exit_error (libmk_set_controller_error c.error r) d }
    | (_, none) => none

/-- C1: the claim says the state field becomes Active on every successful
start and is set back to Inactive when the worker loop exits.  Neither
function touches `state`: starting an Inactive controller with a
successful enable-control call returns success yet leaves the controller
— state field included — bit-for-bit unchanged (still Inactive, not
Active), and a worker run that exits via the raised exit flag returns a
controller whose state is still Active (not Inactive). -/
theorem libmk_state_never_updated_bug :
    (libmk_start_controller LIBMK_SUCCESS
        { garbageController with state := LIBMK_STATE_INACTIVE }).1 =
      LIBMK_SUCCESS ∧
    (libmk_start_controller LIBMK_SUCCESS
        { garbageController with state := LIBMK_STATE_INACTIVE }).2 =
      { garbageController with state := LIBMK_STATE_INACTIVE } ∧
    LIBMK_STATE_INACTIVE ≠ LIBMK_STATE_ACTIVE ∧
    libmk_run_controller (fun _ => LIBMK_SUCCESS) 2 3 LIBMK_SUCCESS
        { garbageController with
          state := LIBMK_STATE_ACTIVE, error := LIBMK_SUCCESS } =
      some { garbageController with
          state := LIBMK_STATE_ACTIVE, error := LIBMK_SUCCESS } ∧
    libmk_get_controller_state { garbageController with
        state := LIBMK_STATE_ACTIVE, error := LIBMK_SUCCESS } ≠
      LIBMK_STATE_INACTIVE := by
  refine ⟨rfl, rfl, by decide, by decide, by decide⟩

/-- C5: the sticky error slot is write-once-wins.  Writing into an unset
slot records the error; writing into a slot already holding an error is a
no-op; consequently, on any worker run whose execution error `e1` was
recorded into an unset slot, the shutdown tail's later disable error `e2`
is discarded and `e1` is retained. -/
theorem libmk_set_controller_error_write_once (s e e1 e2 : LibMK_Result) :
    libmk_set_controller_error LIBMK_SUCCESS e = e ∧
    (s ≠ LIBMK_SUCCESS → libmk_set_controller_error s e = s) ∧
    (e1 ≠ LIBMK_SUCCESS →
      libmk_run_exit_error (libmk_set_controller_error LIBMK_SUCCESS e1) e2
        = e1) := by
  refine ⟨rfl, ?_, ?_⟩
  · intro hs
    simp [libmk_set_controller_error, hs]
  · intro h1
    simp [libmk_run_exit_error, libmk_set_controller_error, h1]

/-- C5 witness: a send error recorded first survives a later disable
error. -/
theorem libmk_set_controller_error_write_once_witness :
    libmk_set_controller_error LIBMK_SUCCESS LIBMK_ERR_SEND = LIBMK_ERR_SEND ∧
    libmk_set_controller_error LIBMK_ERR_SEND LIBMK_ERR_DISABLE =
      LIBMK_ERR_SEND ∧
    libmk_run_exit_error
        (libmk_set_controller_error LIBMK_SUCCESS LIBMK_ERR_SEND)
        LIBMK_ERR_DISABLE = LIBMK_ERR_SEND := by
  refine ⟨(libmk_set_controller_error_write_once LIBMK_ERR_SEND
      LIBMK_ERR_SEND LIBMK_ERR_SEND LIBMK_ERR_DISABLE).1, ?_, ?_⟩
  · exact (libmk_set_controller_error_write_once LIBMK_ERR_SEND
      LIBMK_ERR_DISABLE LIBMK_ERR_SEND LIBMK_ERR_DISABLE).2.1 (by decide)
  · exact (libmk_set_controller_error_write_once LIBMK_ERR_SEND
      LIBMK_ERR_DISABLE LIBMK_ERR_SEND LIBMK_ERR_DISABLE).2.2 (by decide)

theorem libmk_drain_congr_succ (tr : LibMK_TransportCall → LibMK_Result)
    (R C : Nat) (rest : List LibMK_Instruction) (i : LibMK_Instruction)
    (hi : libmk_exec_instruction tr R C (some i) = LIBMK_SUCCESS) :
    libmk_drain tr R C (i :: rest) =
      ((i :: (libmk_drain tr R C rest).1), (libmk_drain tr R C rest).2) := by
  simp [libmk_drain, hi]

theorem libmk_drain_first_failure (tr : LibMK_TransportCall → LibMK_Result)
    (R C : Nat) (N : LibMK_Instruction) (post : List LibMK_Instruction)
    (r : LibMK_Result) (hN : libmk_exec_instruction tr R C (some N) = r)
    (hr : r ≠ LIBMK_SUCCESS) :
    ∀ pre : List LibMK_Instruction,
      (∀ i ∈ pre, libmk_exec_instruction tr R C (some i) = LIBMK_SUCCESS) →
      libmk_drain tr R C (pre ++ N :: post) =
        (pre ++ [N], some (r, N :: post)) := by
  intro pre
  induction pre with
  | nil =>
    intro _
    simp only [List.nil_append]
    rw [libmk_drain, hN, if_neg hr]
  | cons a rest ih =>
    intro h
    rw [List.cons_append, libmk_drain_congr_succ tr R C (rest ++ N :: post) a
      (h a (List.mem_cons_self a rest)),
      ih fun i hi => h i (List.mem_cons_of_mem a hi)]
    simp

/-- C6: on a worker run (exit flag down, error slot unset at loop entry)
whose queue is `pre ++ N :: post`, where every instruction of `pre`
executes successfully and `N`'s execution fails with `r`, the transport is
invoked exactly on `pre ++ [N]` — no instruction after `N` is ever
executed — the loop breaks out (the run terminates with `N :: post` still
queued, no retry and no skip), and `libmk_get_controller_error`
subsequently returns `r`, whatever the shutdown's disable result `d`. -/
theorem libmk_run_controller_halts_on_first_failure
    (tr : LibMK_TransportCall → LibMK_Result) (R C : Nat)
    (pre post : List LibMK_Instruction) (N : LibMK_Instruction)
    (r d : LibMK_Result) (c : LibMK_Controller)
    (hflag : c.exit_flag = false) (hq : c.instr = pre ++ N :: post)
    (herr : c.error = LIBMK_SUCCESS)
    (hpre : ∀ i ∈ pre, libmk_exec_instruction tr R C (some i) = LIBMK_SUCCESS)
    (hN : libmk_exec_instruction tr R C (some N) = r)
    (hr : r ≠ LIBMK_SUCCESS) :
    (libmk_drain tr R C c.instr).1 = pre ++ [N] ∧
    libmk_run_controller tr R C d c =
      some { c with instr := N :: post, error := r } ∧
    libmk_get_controller_error { c with instr := N :: post, error := r } = r := by
  have hdrain := libmk_drain_first_failure tr R C N post r hN hr pre hpre
  refine ⟨by rw [hq, hdrain], ?_, rfl⟩
  rw [libmk_run_controller, hflag, if_neg Bool.false_ne_true, hq, hdrain]
  have h1 : libmk_run_exit_error (libmk_set_controller_error c.error r) d = r := by
    rw [herr]
    exact (libmk_set_controller_error_write_once c.error r r d).2.2 hr
  dsimp only
  rw [h1]

/-- C6 witness: a two-instruction queue whose head succeeds and whose
second instruction fails with a send error. -/
theorem libmk_run_controller_halts_on_first_failure_witness :
    (libmk_drain
        (fun t => if t = .setAllLedColor [0, 0, 0] then LIBMK_ERR_SEND
          else LIBMK_SUCCESS) 2 3
        ({ garbageController with
            exit_flag := false
            error := LIBMK_SUCCESS
            instr := [{ garbageInstruction with colors := some [7] },
              { garbageInstruction with colors := some [0, 0, 0] },
              { garbageInstruction with colors := some [9] }] }).instr).1 =
      [{ garbageInstruction with colors := some [7] },
        { garbageInstruction with colors := some [0, 0, 0] }] ∧
    libmk_run_controller
        (fun t => if t = .setAllLedColor [0, 0, 0] then LIBMK_ERR_SEND
          else LIBMK_SUCCESS) 2 3 LIBMK_ERR_DISABLE
        { garbageController with
            exit_flag := false
            error := LIBMK_SUCCESS
            instr := [{ garbageInstruction with colors := some [7] },
              { garbageInstruction with colors := some [0, 0, 0] },
              { garbageInstruction with colors := some [9] }] } =
      some { garbageController with
          exit_flag := false
          error := LIBMK_ERR_SEND
          instr := [{ garbageInstruction with colors := some [0, 0, 0] },
            { garbageInstruction with colors := some [9] }] } ∧
    libmk_get_controller_error { garbageController with
        exit_flag := false
        error := LIBMK_ERR_SEND
        instr := [{ garbageInstruction with colors := some [0, 0, 0] },
          { garbageInstruction with colors := some [9] }] } = LIBMK_ERR_SEND := by
  have h := libmk_run_controller_halts_on_first_failure
    (fun t => if t = .setAllLedColor [0, 0, 0] then LIBMK_ERR_SEND
      else LIBMK_SUCCESS) 2 3
    [{ garbageInstruction with colors := some [7] }]
    [{ garbageInstruction with colors := some [9] }]
    { garbageInstruction with colors := some [0, 0, 0] }
    LIBMK_ERR_SEND LIBMK_ERR_DISABLE
    { garbageController with
        exit_flag := false
        error := LIBMK_SUCCESS
        instr := [{ garbageInstruction with colors := some [7] },
          { garbageInstruction with colors := some [0, 0, 0] },
          { garbageInstruction with colors := some [9] }] }
    rfl rfl rfl (by decide) (by decide) (by decide)
  exact ⟨h.1, h.2.1, h.2.2⟩

/-- `libmk_join_controller` (lines 149-166): a polling loop.  Each
iteration takes a locked snapshot of the state field; if it is no longer
Active the loop breaks and that snapshot is returned; otherwise the
wall-clock elapsed time is compared against `timeout` and, if exceeded,
the distinguished `LIBMK_STATE_JOIN_ERR` is returned — without ever
writing to the controller.  Because the worker mutates `state`
concurrently, the controller is modelled by the trace `stateAt n` of the
snapshot taken at poll `n`, and the clock by `elapsedAt n` (the C
`double`s become rationals).  `fuel` bounds the number of polls so the
function is total; `none` means the loop was still polling after `fuel`
iterations (state still Active and deadline not passed). -/
def libmk_join_controller (stateAt : Nat → LibMK_Controller_State)
    (elapsedAt : Nat → ℚ) (timeout : ℚ) : Nat → Option LibMK_Controller_State
  | 0 => none
  | fuel + 1 =>
    if stateAt 0 ≠ LIBMK_STATE_ACTIVE then some (stateAt 0)
    else if elapsedAt 0 > timeout then some LIBMK_STATE_JOIN_ERR
    else
      libmk_join_controller (fun n => stateAt (n + 1))
        (fun n => elapsedAt (n + 1)) timeout fuel

theorem libmk_join_reaches_terminal (n0 : Nat) :
    ∀ (stateAt : Nat → LibMK_Controller_State) (elapsedAt : Nat → ℚ)
      (timeout : ℚ) (fuel : Nat), n0 < fuel →
      (∀ n < n0, stateAt n = LIBMK_STATE_ACTIVE ∧ ¬ timeout < elapsedAt n) →
      stateAt n0 ≠ LIBMK_STATE_ACTIVE →
      libmk_join_controller stateAt elapsedAt timeout fuel = some (stateAt n0) := by
  induction n0 with
  | zero =>
    intro stateAt elapsedAt timeout fuel hf hpoll hterm
    match fuel, hf with
    | fuel + 1, _ =>
      simp [libmk_join_controller, hterm]
  | succ m ih =>
    intro stateAt elapsedAt timeout fuel hf hpoll hterm
    match fuel, hf with
    | fuel + 1, hf =>
      have h0 := hpoll 0 (Nat.succ_pos m)
      rw [libmk_join_controller, if_neg (by simp [h0.1]), if_neg h0.2]
      exact ih (fun n => stateAt (n + 1)) (fun n => elapsedAt (n + 1)) timeout
        fuel (Nat.lt_of_succ_lt_succ hf)
        (fun n hn => hpoll (n + 1) (Nat.succ_lt_succ hn)) hterm

theorem libmk_join_hits_deadline (n0 : Nat) :
    ∀ (stateAt : Nat → LibMK_Controller_State) (elapsedAt : Nat → ℚ)
      (timeout : ℚ) (fuel : Nat), n0 < fuel →
      (∀ n < n0, stateAt n = LIBMK_STATE_ACTIVE ∧ ¬ timeout < elapsedAt n) →
      stateAt n0 = LIBMK_STATE_ACTIVE → timeout < elapsedAt n0 →
      libmk_join_controller stateAt elapsedAt timeout fuel =
        some LIBMK_STATE_JOIN_ERR := by
  induction n0 with
  | zero =>
    intro stateAt elapsedAt timeout fuel hf hpoll hact hdl
    match fuel, hf with
    | fuel + 1, _ =>
      rw [libmk_join_controller, if_neg (by simp [hact]), if_pos hdl]
  | succ m ih =>
    intro stateAt elapsedAt timeout fuel hf hpoll hact hdl
    match fuel, hf with
    | fuel + 1, hf =>
      have h0 := hpoll 0 (Nat.succ_pos m)
      rw [libmk_join_controller, if_neg (by simp [h0.1]), if_neg h0.2]
      exact ih (fun n => stateAt (n + 1)) (fun n => elapsedAt (n + 1)) timeout
        fuel (Nat.lt_of_succ_lt_succ hf)
        (fun n hn => hpoll (n + 1) (Nat.succ_lt_succ hn)) hact hdl

/-- C8: along any poll trace whose first `n0` snapshots are Active with
the deadline not yet passed, join returns the terminal state the moment
poll `n0` observes a non-Active state; and if poll `n0` still observes
Active but the elapsed time now exceeds `timeout`, join returns the
distinguished `LIBMK_STATE_JOIN_ERR` while the controller's own state
field — which join never writes (the model is a pure function of the
trace) — still reads Active at that very poll. -/
theorem libmk_join_controller_contract
    (stateAt : Nat → LibMK_Controller_State) (elapsedAt : Nat → ℚ)
    (timeout : ℚ) (n0 fuel : Nat) (hf : n0 < fuel)
    (hpoll : ∀ n < n0, stateAt n = LIBMK_STATE_ACTIVE ∧ ¬ timeout < elapsedAt n) :
    (stateAt n0 ≠ LIBMK_STATE_ACTIVE →
      libmk_join_controller stateAt elapsedAt timeout fuel = some (stateAt n0)) ∧
    (stateAt n0 = LIBMK_STATE_ACTIVE → timeout < elapsedAt n0 →
      libmk_join_controller stateAt elapsedAt timeout fuel =
          some LIBMK_STATE_JOIN_ERR ∧
        stateAt n0 = LIBMK_STATE_ACTIVE) := by
  constructor
  · exact libmk_join_reaches_terminal n0 stateAt elapsedAt timeout fuel hf hpoll
  · intro hact hdl
    exact ⟨libmk_join_hits_deadline n0 stateAt elapsedAt timeout fuel hf hpoll
      hact hdl, hact⟩

/-- C8 witness: a worker that goes Inactive at the second poll is joined
with its terminal state; a worker still Active when the clock passes a
zero timeout yields `LIBMK_STATE_JOIN_ERR`. -/
theorem libmk_join_controller_contract_witness :
    libmk_join_controller
        (fun n => if n = 0 then LIBMK_STATE_ACTIVE else LIBMK_STATE_INACTIVE)
        (fun _ => 0) 1 2 = some LIBMK_STATE_INACTIVE ∧
    libmk_join_controller (fun _ => LIBMK_STATE_ACTIVE) (fun _ => 1) 0 1 =
      some LIBMK_STATE_JOIN_ERR := by
  constructor
  · have h := (libmk_join_controller_contract
      (fun n => if n = 0 then LIBMK_STATE_ACTIVE else LIBMK_STATE_INACTIVE)
      (fun _ => 0) 1 1 2 (by decide)
      (fun n hn => by
        match n, hn with
        | 0, _ => exact ⟨rfl, by decide⟩)).1 (by decide)
    simpa using h
  · exact ((libmk_join_controller_contract (fun _ => LIBMK_STATE_ACTIVE)
      (fun _ => 1) 0 0 1 (by decide)
      (fun n hn => absurd hn (Nat.not_lt_zero n))).2 rfl (by decide)).1

/-- C10: the loop body reads the state snapshot before it ever looks at
the clock, so a controller that is already out of Active at the first
poll makes join return that state for every timeout — a zero or negative
timeout included — and never reports `LIBMK_STATE_JOIN_ERR` (as long as
the stored state is not itself that value, which per the spec is never
persisted into the state field). -/
theorem libmk_join_controller_checks_state_first
    (stateAt : Nat → LibMK_Controller_State) (elapsedAt : Nat → ℚ)
    (timeout : ℚ) (fuel : Nat) (h : stateAt 0 ≠ LIBMK_STATE_ACTIVE) :
    libmk_join_controller stateAt elapsedAt timeout (fuel + 1) =
        some (stateAt 0) ∧
    (stateAt 0 ≠ LIBMK_STATE_JOIN_ERR →
      libmk_join_controller stateAt elapsedAt timeout (fuel + 1) ≠
        some LIBMK_STATE_JOIN_ERR) := by
  refine ⟨by simp [libmk_join_controller, h], ?_⟩
  intro hj
  simp [libmk_join_controller, h, hj]

/-- C10 witness: an already-Inactive controller joined with the negative
timeout `-1` still returns Inactive immediately, not the timeout value. -/
theorem libmk_join_controller_checks_state_first_witness :
    libmk_join_controller (fun _ => LIBMK_STATE_INACTIVE) (fun _ => 0)
        (-1) 1 = some LIBMK_STATE_INACTIVE ∧
    libmk_join_controller (fun _ => LIBMK_STATE_INACTIVE) (fun _ => 0)
        (-1) 1 ≠ some LIBMK_STATE_JOIN_ERR := by
  have h := libmk_join_controller_checks_state_first
    (fun _ => LIBMK_STATE_INACTIVE) (fun _ => 0) (-1) 0 (by decide)
  exact ⟨h.1, h.2 (by decide)⟩
